import Mathlib

/-!
Verification development for the BuildSwift lead-analysis engine
(`src/lead_finder.py`).  The single-site analyzer `analyze_website`
(lines 20-122), the draft generator `generate_email_draft`
(lines 125-166) and the spec-described batch opportunity scorer are
embedded as executable Lean definitions, and the behavioural claims
about them are proved below.

Strings are modelled as Lean `String`/`List Char`; Python `str.lower`
is modelled by ASCII case folding over the character list, and the
regex character classes `\d`, `\s`, `[a-zA-Z]` by their ASCII
decidable predicates.
-/

/-- Does `pat` occur as a contiguous sublist of the second argument? -/
def hasInfix (pat : List Char) : List Char → Bool
  | [] => pat.isEmpty
  | c :: rest => pat.isPrefixOf (c :: rest) || hasInfix pat rest

/-- Python substring containment `pat in s`. -/
def pyContains (s pat : String) : Bool :=
  hasInfix pat.data s.data

/-- Python `str.lower` (ASCII case folding), character by character. -/
def pyLower (s : String) : String :=
  String.mk (s.data.map Char.toLower)

/-- Python `s.startswith(pre)`. -/
def pyStartsWith (s pre : String) : Bool :=
  pre.data.isPrefixOf s.data

/-- Python `s.count(pat)` for a non-empty pattern: number of
non-overlapping occurrences, scanning left to right.  Fuelled by the
input length, which bounds the number of steps since every step
consumes at least one character. -/
def countOccsGo (pat : List Char) : Nat → List Char → Nat
  | _, [] => 0
  | 0, _ => 0
  | fuel + 1, c :: rest =>
    if pat.isPrefixOf (c :: rest) then
      1 + countOccsGo pat fuel (rest.drop (pat.length - 1))
    else
      countOccsGo pat fuel rest

/-- Python `l.count(pat)` over character lists (`pat` non-empty). -/
def countOccs (pat l : List Char) : Nat := countOccsGo pat l.length l

/-- Python regex `\s` restricted to ASCII whitespace. -/
def isPySpace (c : Char) : Bool :=
  c = ' ' || c = '\t' || c = '\n' || c = '\r' || c = '\x0b' || c = '\x0c'

/-- After the literal `©`/`copyright` has been consumed, match the
rest of the pattern `\s*(\d{4})` of `lead_finder.py` line 57 and
return the captured year. -/
def matchYearAfter (s : List Char) : Option Nat :=
  match s.dropWhile isPySpace with
  | a :: b :: c :: d :: _ =>
    if a.isDigit && b.isDigit && c.isDigit && d.isDigit then
      some ((a.toNat - 48) * 1000 + (b.toNat - 48) * 100 +
            (c.toNat - 48) * 10 + (d.toNat - 48))
    else none
  | _ => none

/-- Attempt the pattern `(?:©|copyright)\s*(\d{4})` at the head of
`s` (alternatives tried in regex order; they are disjoint since one
starts with `©` and the other with `c`). -/
def tryCopyrightAt (s : List Char) : Option Nat :=
  if ['©'].isPrefixOf s then matchYearAfter (s.drop 1)
  else if "copyright".data.isPrefixOf s then matchYearAfter (s.drop 9)
  else none

/-- The copyright-year loop of `lead_finder.py` lines 57-61: iterate
over the matches of `(?:©|copyright)\s*(\d{4})` in scan order and
return the first captured year `< 2022` (the loop `break`s there).
No match can begin strictly inside an earlier match (a match consists
of the literal, spaces and digits, and neither `©` nor `copyright`
can start inside those), so advancing one character at a time visits
exactly the `finditer` matches. -/
def copyrightYear : List Char → Option Nat
  | [] => none
  | c :: rest =>
    match tryCopyrightAt (c :: rest) with
    | some yr => if yr < 2022 then some yr else copyrightYear rest
    | none => copyrightYear rest

/-- Python `round(n / 1024)` for a natural `n`: the quotient is exact
in binary floating point (for any realistic page size), so this is
round-half-to-even on `n / 1024`. -/
def pyRound1024 (n : Nat) : Nat :=
  let q := n / 1024
  let r := n % 1024
  if 512 < r then q + 1
  else if r < 512 then q
  else if q % 2 = 0 then q else q + 1

/-- The viewport marker searched for on lines 37 and 104. -/
def viewportMarker : String := "<meta name=\"viewport\""

/-- The table-layout marker of line 45. -/
def tablePat : List Char := "<table".data

/-- The raw single-site severity score of `analyze_website`
(`lead_finder.py` lines 27-81): the sequential `score += w` additions,
one per fired rule, in source order. -/
def rawScore (respUrl html : String) : Nat :=
  let hl := pyLower html
  (if ¬ pyContains hl viewportMarker then 3 else 0)
  + (if pyStartsWith respUrl "http://" then 2 else 0)
  + (if pyContains hl "<table" ∧ 3 < countOccs tablePat hl.data then 3 else 0)
  + (if pyContains hl "<marquee" then 4 else 0)
  + (if pyContains hl "<frame" ∨ pyContains hl "<frameset" then 5 else 0)
  + (if pyContains hl "flash" ∧ (pyContains hl ".swf" ∨ pyContains hl "swfobject") then 5 else 0)
  + (if pyContains hl "comic sans" ∨ pyContains hl "papyrus" then 3 else 0)
  + (if (copyrightYear hl.data).isSome then 2 else 0)
  + (if 500000 < html.length then 1 else 0)
  + (if pyContains hl "under construction" ∨ pyContains hl "coming soon" then 2 else 0)
  + (if pyContains hl "wp-content" ∧
        (¬ pyContains hl "flavor" ∧ (pyContains hl "twentytwenty" ∨ pyContains hl "flavor"))
     then 1 else 0)

/-- The issue list of `analyze_website` (`lead_finder.py` lines
36-81): the sequential `issues.append(...)` calls, one segment per
rule, in source order (builder fingerprints in loop order Wix,
Squarespace, Weebly; the WordPress info issue precedes the nested
default-theme check). -/
def issuesOf (respUrl html : String) : List String :=
  let hl := pyLower html
  (if ¬ pyContains hl viewportMarker then ["❌ Not mobile responsive"] else [])
  ++ (if pyStartsWith respUrl "http://" then ["❌ No HTTPS (insecure)"] else [])
  ++ (if pyContains hl "<table" ∧ 3 < countOccs tablePat hl.data then
        ["❌ Table-based layout (very outdated)"] else [])
  ++ (if pyContains hl "<marquee" then ["❌ Uses <marquee> (ancient)"] else [])
  ++ (if pyContains hl "<frame" ∨ pyContains hl "<frameset" then ["❌ Uses frames"] else [])
  ++ (if pyContains hl "flash" ∧ (pyContains hl ".swf" ∨ pyContains hl "swfobject") then
        ["❌ Uses Flash"] else [])
  ++ (if pyContains hl "comic sans" ∨ pyContains hl "papyrus" then
        ["❌ Comic Sans / Papyrus font"] else [])
  ++ (match copyrightYear hl.data with
      | some yr => ["❌ Copyright year: " ++ toString yr]
      | none => [])
  ++ (if 500000 < html.length then ["⚠️ Very heavy page (slow load)"] else [])
  ++ (if pyContains hl "under construction" ∨ pyContains hl "coming soon" then
        ["❌ Under construction / coming soon"] else [])
  ++ (if pyContains hl "wix.com" then ["ℹ️ Built on Wix"] else [])
  ++ (if pyContains hl "squarespace" then ["ℹ️ Built on Squarespace"] else [])
  ++ (if pyContains hl "weebly" then ["ℹ️ Built on Weebly"] else [])
  ++ (if pyContains hl "wp-content" then
        "ℹ️ WordPress site" ::
        (if ¬ pyContains hl "flavor" ∧ (pyContains hl "twentytwenty" ∨ pyContains hl "flavor")
         then ["⚠️ Default WordPress theme"] else [])
      else [])

/-- The result record returned by `analyze_website` (the fields of
the grab-bag dict on lines 95-107 and 110-122 that carry the
engine's scoring/extraction contract; `title`/`description` are
presentation fields not touched by any analysed property). -/
structure LeadResult where
  url : String
  score : Nat
  issues : List String
  emails : List String
  phones : List String
  status : Nat
  mobileFriendly : Bool
  https : Bool
  pageSizeKb : Nat
  deriving Repr, DecidableEq

/-- Character class `[a-zA-Z0-9._%+-]` of the email pattern
(`lead_finder.py` line 84), ASCII. -/
def isLocalChar (c : Char) : Bool :=
  c.isAlphanum || c = '.' || c = '_' || c = '%' || c = '+' || c = '-'

/-- Character class `[a-zA-Z0-9.-]` of the email pattern. -/
def isDomainChar (c : Char) : Bool :=
  c.isAlphanum || c = '.' || c = '-'

/-- Length of the maximal `[a-zA-Z]` run at the head of a list. -/
def letterRun (l : List Char) : Nat := (l.takeWhile Char.isAlpha).length

/-- Given `D`, the maximal run of domain characters after the `@`,
find how much of it the sub-pattern `[a-zA-Z0-9.-]+\.[a-zA-Z]{2,}`
matches.  Backtracking of the greedy `+` tries the dot position `j`
from the right; the first part needs at least one character (`1 ≤ j`)
and the greedy trailing `[a-zA-Z]{2,}` takes the maximal letter run
(at least 2 letters) after the dot. -/
def domMatchLen (D : List Char) : Option Nat :=
  (List.range D.length).reverse.findSome? fun j =>
    if 1 ≤ j ∧ D.getD j ' ' = '.' ∧ 2 ≤ letterRun (D.drop (j + 1)) then
      some (j + 1 + letterRun (D.drop (j + 1)))
    else none

/-- Attempt the email pattern
`[a-zA-Z0-9._%+-]+@[a-zA-Z0-9.-]+\.[a-zA-Z]{2,}` at the head of `s`;
on success return the matched characters and the remainder of the
input after the match.  The local part is the maximal run of local
characters (no shorter run can precede the literal `@`, since `@` is
not a local character, so the greedy `+` is deterministic here). -/
def emailMatchAt (s : List Char) : Option (List Char × List Char) :=
  let loc := s.takeWhile isLocalChar
  if loc.isEmpty then none
  else
    match s.drop loc.length with
    | '@' :: after =>
      let D := after.takeWhile isDomainChar
      match domMatchLen D with
      | some mlen => some (loc ++ '@' :: D.take mlen, after.drop mlen)
      | none => none
    | _ => none

/-- `re.findall` scan for the email pattern: try each start position
left to right; on a match, emit it and continue after the match
(non-overlapping), otherwise advance one character.  The fuel is the
input length, which bounds the number of steps since every step
consumes at least one character. -/
def emailScan : Nat → List Char → List String
  | 0, _ => []
  | _, [] => []
  | fuel + 1, c :: rest =>
    match emailMatchAt (c :: rest) with
    | some (m, rem) => String.mk m :: emailScan fuel rem
    | none => emailScan fuel rest

/-- `re.findall(r'[a-zA-Z0-9._%+-]+@[a-zA-Z0-9.-]+\.[a-zA-Z]{2,}', html)`
of `lead_finder.py` line 84, in scan order. -/
def emailFindall (s : String) : List String := emailScan s.data.length s.data

/-- Character class `[-.\s]` of the phone pattern (line 85), ASCII. -/
def isSepChar (c : Char) : Bool := c = '-' || c = '.' || isPySpace c

/-- Greedy `X?`: consume one character satisfying `p` if present.
For the phone pattern this is deterministic: none of `(`, `)` or a
separator can satisfy the `\d` that follows, so declining a present
optional character never rescues the match. -/
def optChar (p : Char → Bool) (s : List Char) : List Char × List Char :=
  match s with
  | c :: rest => if p c then ([c], rest) else ([], s)
  | [] => ([], [])

/-- `\d{n}`: exactly `n` digits. -/
def takeDigits : Nat → List Char → Option (List Char × List Char)
  | 0, s => some ([], s)
  | n + 1, c :: rest =>
    if c.isDigit then
      match takeDigits n rest with
      | some (ds, rem) => some (c :: ds, rem)
      | none => none
    else none
  | _ + 1, [] => none

/-- Attempt the phone pattern `\(?\d{3}\)?[-.\s]?\d{3}[-.\s]?\d{4}`
at the head of `s`. -/
def phoneMatchAt (s : List Char) : Option (List Char × List Char) :=
  let (p1, s1) := optChar (· = '(') s
  match takeDigits 3 s1 with
  | none => none
  | some (d1, s2) =>
    let (p2, s3) := optChar (· = ')') s2
    let (sep1, s4) := optChar isSepChar s3
    match takeDigits 3 s4 with
    | none => none
    | some (d2, s5) =>
      let (sep2, s6) := optChar isSepChar s5
      match takeDigits 4 s6 with
      | none => none
      | some (d3, s7) => some (p1 ++ d1 ++ p2 ++ sep1 ++ d2 ++ sep2 ++ d3, s7)

/-- `re.findall` scan for the phone pattern, fuelled like `emailScan`. -/
def phoneScan : Nat → List Char → List String
  | 0, _ => []
  | _, [] => []
  | fuel + 1, c :: rest =>
    match phoneMatchAt (c :: rest) with
    | some (m, rem) => String.mk m :: phoneScan fuel rem
    | none => phoneScan fuel rest

/-- `re.findall(r'\(?\d{3}\)?[-.\s]?\d{3}[-.\s]?\d{4}', html)` of
`lead_finder.py` line 85, in scan order. -/
def phoneFindall (s : String) : List String := phoneScan s.data.length s.data

/-- Deduplication keeping the first occurrence in scan order (the
ordering the specification ascribes to contact extraction). -/
def dedupFirstAux (seen : List String) : List String → List String
  | [] => []
  | x :: xs =>
    if x ∈ seen then dedupFirstAux seen xs
    else x :: dedupFirstAux (x :: seen) xs

/-- First-seen-order deduplication of a list of strings. -/
def dedupFirst (xs : List String) : List String := dedupFirstAux [] xs

/-- `out` is a possible result of Python `list(set(xs))`: a
duplicate-free list with exactly the elements of `xs`.  CPython set
iteration order is implementation-defined (it depends on string
hashing, which is randomized per process), so the embedding
quantifies over every admissible enumeration. -/
def IsSetList (xs out : List String) : Prop :=
  out.Nodup ∧ (∀ a ∈ xs, a ∈ out) ∧ (∀ a ∈ out, a ∈ xs)

instance (xs out : List String) : Decidable (IsSetList xs out) := by
  unfold IsSetList; infer_instance

/-- The success path of `analyze_website` (`lead_finder.py` lines
29-107), as a function of the final resolved URL, the fetched body,
the HTTP status, and the set enumerations `eout`/`pout` chosen by
`list(set(...))` on lines 84-85 (constrained by `IsSetList` in the
theorems below). -/
def analyzeOk (respUrl html : String) (status : Nat)
    (eout pout : List String) : LeadResult :=
  { url := respUrl
    score := min (rawScore respUrl html) 10
    issues := issuesOf respUrl html
    emails := eout.take 5
    phones := pout.take 5
    status := status
    mobileFriendly := pyContains (pyLower html) viewportMarker
    https := pyStartsWith respUrl "https"
    pageSizeKb := pyRound1024 html.length }

/-- The exception path of `analyze_website` (`lead_finder.py` lines
109-122): any fetch failure is caught and converted into this fixed
degraded record (`emsg` is `str(e)`, truncated to 80 characters). -/
def analyzeErr (url emsg : String) : LeadResult :=
  { url := url
    score := 2
    issues := ["❌ Site unreachable: " ++ emsg.take 80]
    emails := []
    phones := []
    status := 0
    mobileFriendly := false
    https := false
    pageSizeKb := 0 }

/-- The fields of the lead record that `generate_email_draft`
(`lead_finder.py` lines 125-166) reads. -/
structure Lead where
  title : String
  url : String
  issues : List String
  mobileFriendly : Bool
  deriving Repr, DecidableEq

/-- The business display name of `generate_email_draft` (lines
127-129): `title.split('|')[0].split('-')[0].split('—')[0].strip()`,
replaced by the placeholder when longer than 40 characters or equal
to the URL. -/
def bizOf (lead : Lead) : String :=
  let b := (((lead.title.takeWhile (· ≠ '|')).takeWhile (· ≠ '-')).takeWhile
      (· ≠ '—')).trim
  if 40 < b.length ∨ b = lead.url then "your business" else b

/-- The negative-polarity issues (line 131): those starting with the
`❌` marker. -/
def painPoints (lead : Lead) : List String :=
  lead.issues.filter (fun i => pyStartsWith i "❌")

/-- The hook sentence of `generate_email_draft` (lines 133-138). -/
def hookOf (lead : Lead) : String :=
  match painPoints lead with
  | [] => "I noticed your website could use a refresh"
  | [p] => "I noticed " ++ (p.replace "❌ " "").toLower ++ " on your website"
  | ps => "I found " ++ toString ps.length ++
      " issues with your current website that are likely costing you customers"

/-- The display-name computation exactly as the specification words
it (spec §4.4): split the title at `|`, then that result at `-`, then
that result at `—`, take the first segment, trim whitespace, and fall
back to the generic placeholder when the name exceeds 40 characters
or equals the original URL string. -/
def displayNameSpec (titleHint url : String) : String :=
  let seg1 := titleHint.takeWhile (· ≠ '|')
  let seg2 := seg1.takeWhile (· ≠ '-')
  let seg3 := seg2.takeWhile (· ≠ '—')
  let name := seg3.trim
  if 40 < name.length ∨ name = url then "your business" else name

/-- Modelled from the spec: the batch-lead opportunity scorer
`score_opportunity(url, title, snippet)` of spec §4.3 and §8 is not
present under `src/` (the repository sources contain only the
single-site analyzer), so it is modelled here following the spec
words: no URL is a hard override (score 0, single "no website"
issue, remaining rules short-circuited); otherwise start from 50,
subtract the domain penalties (builder −15, social/directory −25,
free-hosted subdomain −10) then the snippet penalties (parked −30,
legacy plugin −25) cumulatively, clamp into [0, 100], and append one
informational issue when no penalty fired. -/
def score_opportunity (url title snippet : String) : Int × List String :=
  if url = "" then (0, ["No website found"])
  else
    let u := pyLower url
    let s := pyLower snippet
    let builderHit := pyContains u "wix.com" ∨ pyContains u "squarespace" ∨ pyContains u "weebly"
    let socialHit := pyContains u "facebook.com" ∨ pyContains u "yelp.com"
    let freeHit := pyContains u "wordpress.com"
    let parkedHit := pyContains s "under construction" ∨ pyContains s "coming soon" ∨
        pyContains s "parked"
    let legacyHit := pyContains s "flash"
    let raw : Int := 50 - (if builderHit then 15 else 0) - (if socialHit then 25 else 0)
      - (if freeHit then 10 else 0) - (if parkedHit then 30 else 0)
      - (if legacyHit then 25 else 0)
    let issues :=
      (if builderHit then ["Built on a low-cost website builder"] else [])
      ++ (if socialHit then ["Hosted on a social network or directory"] else [])
      ++ (if freeHit then ["Free-hosted CMS subdomain"] else [])
      ++ (if parkedHit then ["Maintenance or parked-domain phrases in snippet"] else [])
      ++ (if legacyHit then ["Legacy plugin technology mentioned in snippet"] else [])
    if issues.isEmpty then (max 0 (min 100 raw), ["Site exists - may need manual review"])
    else (max 0 (min 100 raw), issues)

/-- Concrete document for the worked example of spec §8: four
`<table>` markers, no viewport tag, and an old copyright year. -/
def docC6 : String :=
  "<table></table><table></table><table></table><table></table>© 1998"

/-- Resolved URL for the worked example: plain `http://` scheme. -/
def urlC6 : String := "http://oldsite.example.com"

/-- Concrete document for the contact-extraction claims: one
duplicated and one further email address, no phone number. -/
def docC2 : String := "a@b.com c@d.cc a@b.com"

/-- Concrete document for the default-theme claim: a WordPress
fingerprint and the `twentytwenty` token without `flavor`, plus a
viewport tag so no other rule fires. -/
def docC5 : String := "<meta name=\"viewport\"> wp-content twentytwenty"

/-- Lead with no negative issue (hook branch 0). -/
def leadHook0 : Lead :=
  { title := "Acme", url := "https://acme.example"
    issues := ["ℹ️ WordPress site"], mobileFriendly := true }

/-- Lead with exactly one negative issue (hook branch 1). -/
def leadHook1 : Lead :=
  { title := "Acme", url := "https://acme.example"
    issues := ["❌ No HTTPS (insecure)"], mobileFriendly := true }

/-- Lead with three negative issues (hook branch 2). -/
def leadHook3 : Lead :=
  { title := "Acme", url := "https://acme.example"
    issues := ["❌ Not mobile responsive", "❌ No HTTPS (insecure)", "❌ Uses frames"]
    mobileFriendly := false }

/-- Membership in a conditional list segment of `issuesOf`. -/
theorem mem_iteNil {a : String} {c : Prop} [Decidable c] {l : List String} :
    (a ∈ if c then l else ([] : List String)) ↔ c ∧ a ∈ l := by
  split <;> simp_all

/-- A string differs from `pre ++ t` whenever it differs from `pre`
at some position inside `pre`, whatever `t` is. -/
theorem ne_append_of_getElem {s pre : String} (t : String) (i : Nat)
    (hi : i < pre.data.length) (hne : s.data[i]? ≠ pre.data[i]?) : s ≠ pre ++ t := by
  intro h
  apply hne
  rw [h, String.data_append, List.getElem?_append_left hi]

/-- The rule-1 issue differs from every copyright-year issue. -/
theorem notMobile_ne_copyright (yr : Nat) :
    ("❌ Not mobile responsive" : String) ≠ "❌ Copyright year: " ++ toString yr :=
  ne_append_of_getElem (toString yr) 2 (by decide) (by decide)

/-- The default-theme issue differs from every copyright-year issue. -/
theorem defaultTheme_ne_copyright (yr : Nat) :
    ("⚠️ Default WordPress theme" : String) ≠ "❌ Copyright year: " ++ toString yr :=
  ne_append_of_getElem (toString yr) 0 (by decide) (by decide)

/-- The rule-1 issue is in the issue list exactly when the viewport
marker is missing from the lowercased content. -/
theorem notMobile_mem_issues (respUrl html : String) :
    ("❌ Not mobile responsive" ∈ issuesOf respUrl html) ↔
      ¬ pyContains (pyLower html) viewportMarker := by
  cases hcp : copyrightYear (pyLower html).data with
  | none =>
    by_cases hv : pyContains (pyLower html) viewportMarker <;>
      simp [issuesOf, hcp, hv, mem_iteNil]
  | some yr =>
    by_cases hv : pyContains (pyLower html) viewportMarker <;>
      simp [issuesOf, hcp, hv, mem_iteNil, notMobile_ne_copyright yr]

/-- The default-theme issue is in the issue list exactly when the
WordPress fingerprint is present together with the (simplified)
secondary condition. -/
theorem defaultTheme_mem_issues (respUrl html : String) :
    ("⚠️ Default WordPress theme" ∈ issuesOf respUrl html) ↔
      (pyContains (pyLower html) "wp-content" ∧
        ¬ pyContains (pyLower html) "flavor" ∧
        (pyContains (pyLower html) "twentytwenty" ∨ pyContains (pyLower html) "flavor")) := by
  cases hcp : copyrightYear (pyLower html).data with
  | none => simp [issuesOf, hcp, mem_iteNil]
  | some yr => simp [issuesOf, hcp, mem_iteNil, defaultTheme_ne_copyright yr]

/-- Claim C1: for every document analyzed in single-site mode,
including the exception path, the returned score lies in [0, 10]; it
is the sum of the fired rule weights (a natural number, hence never
negative) clamped to a maximum of 10, and the error record's fixed
score 2 also lies in the range. -/
theorem score_in_range (respUrl html : String) (status : Nat)
    (eout pout : List String) (url emsg : String) :
    (analyzeOk respUrl html status eout pout).score = min (rawScore respUrl html) 10 ∧
    (analyzeOk respUrl html status eout pout).score ≤ 10 ∧
    (analyzeErr url emsg).score = 2 ∧
    (analyzeErr url emsg).score ≤ 10 :=
  ⟨rfl, Nat.min_le_right _ _, rfl, by norm_num [analyzeErr]⟩

/-- Claim C3: in batch lead mode, an absent/empty URL yields
opportunity score exactly 0 with exactly the single "no website"
issue, short-circuiting all remaining rules regardless of title and
snippet contents (spec-modelled scorer). -/
theorem score_opportunity_no_url (title snippet : String) :
    score_opportunity "" title snippet = (0, ["No website found"]) := rfl

/-- Claim C4: every fetch failure degrades gracefully (the embedded
exception handler is total) to the fixed near-zero score 2 together
with exactly one explanatory unreachable issue carrying the truncated
error text, so the result is never empty of explanation. -/
theorem unreachable_degrades (url emsg : String) :
    (analyzeErr url emsg).score = 2 ∧
    (analyzeErr url emsg).issues = ["❌ Site unreachable: " ++ emsg.take 80] ∧
    (analyzeErr url emsg).issues.length = 1 :=
  ⟨rfl, rfl, rfl⟩

/-- Claim C6: the worked example — a document with `<table>` four
times, no viewport tag, an `http://` resolved URL and `© 1998` —
fires exactly the table (3), mobile (3), HTTPS (2) and old-copyright
(2) rules, for a raw sum of 10, clamped score 10. -/
theorem example_doc_score_ten :
    (¬ pyContains (pyLower docC6) viewportMarker) ∧
    pyStartsWith urlC6 "http://" = true ∧
    3 < countOccs tablePat (pyLower docC6).data ∧
    copyrightYear (pyLower docC6).data = some 1998 ∧
    rawScore urlC6 docC6 = 3 + 2 + 3 + 2 ∧
    (analyzeOk urlC6 docC6 200 [] []).score = 10 := by
  decide

/-- Claim C8: the draft's business display name is computed by
splitting the title on `|`, then that result on `-`, then that result
on `—`, taking the first segment and trimming, with the generic
placeholder substituted when the name exceeds 40 characters or equals
the original URL — the code refines the spec's wording exactly. -/
theorem display_name_refines_spec (lead : Lead) :
    bizOf lead = displayNameSpec lead.title lead.url := rfl

/-- Claim C9: signal extraction is deterministic — the issue list is
a pure function of the resolved URL and document content, identical
across runs and in particular independent of the status code and of
the set-iteration order used for contact extraction. -/
theorem issues_order_deterministic (respUrl html : String) (st1 st2 : Nat)
    (e1 p1 e2 p2 : List String) :
    (analyzeOk respUrl html st1 e1 p1).issues = (analyzeOk respUrl html st2 e2 p2).issues ∧
    (analyzeOk respUrl html st1 e1 p1).issues = issuesOf respUrl html :=
  ⟨rfl, rfl⟩

/-- Claim C7: the draft's hook sentence follows exactly three
branches on the number of negative-polarity issues — zero gives the
generic refresh hook, exactly one names that issue lower-cased with
its marker stripped, and more than one states the count generically. -/
theorem hook_three_branches (lead : Lead) :
    (painPoints lead = [] →
      hookOf lead = "I noticed your website could use a refresh") ∧
    (∀ p, painPoints lead = [p] →
      hookOf lead = "I noticed " ++ (p.replace "❌ " "").toLower ++ " on your website") ∧
    (∀ p q rest, painPoints lead = p :: q :: rest →
      hookOf lead = "I found " ++ toString (painPoints lead).length ++
        " issues with your current website that are likely costing you customers") := by
  refine ⟨fun h => ?_, fun p h => ?_, fun p q rest h => ?_⟩ <;> simp [hookOf, h]

/-- Witness for claim C7: the three hook branches at concrete leads
with zero, one and three negative issues. -/
theorem hook_three_branches_witness :
    hookOf leadHook0 = "I noticed your website could use a refresh" ∧
    hookOf leadHook1 = "I noticed " ++
      (("❌ No HTTPS (insecure)".replace "❌ " "").toLower) ++ " on your website" ∧
    hookOf leadHook3 = "I found " ++ toString (painPoints leadHook3).length ++
      " issues with your current website that are likely costing you customers" :=
  ⟨(hook_three_branches leadHook0).1 (by decide),
   (hook_three_branches leadHook1).2.1 "❌ No HTTPS (insecure)" (by decide),
   (hook_three_branches leadHook3).2.2 "❌ Not mobile responsive"
     "❌ No HTTPS (insecure)" ["❌ Uses frames"] (by decide)⟩

/-- Claim C10: for every successfully fetched document the
mobile-friendly flag is true exactly when the lowercased content
contains the viewport marker, which holds exactly when the rule-1
issue is absent from the result's issue list. -/
theorem mobile_flag_consistent (respUrl html : String) (status : Nat)
    (eout pout : List String) :
    ((analyzeOk respUrl html status eout pout).mobileFriendly = true ↔
      pyContains (pyLower html) viewportMarker = true) ∧
    ((analyzeOk respUrl html status eout pout).mobileFriendly = true ↔
      "❌ Not mobile responsive" ∉ (analyzeOk respUrl html status eout pout).issues) := by
  refine ⟨Iff.rfl, ?_⟩
  show pyContains (pyLower html) viewportMarker = true ↔
    "❌ Not mobile responsive" ∉ issuesOf respUrl html
  rw [notMobile_mem_issues]
  simp

/-- Counterexample for claim C5: on a document containing the
WordPress fingerprint and `twentytwenty` but not `flavor`, the
secondary default-theme check does fire, contributing severity
weight 1 (the clamped score is 1, not 0) and its warning issue. -/
theorem default_theme_counterexample :
    "⚠️ Default WordPress theme" ∈ (analyzeOk "https://shop.example" docC5 200 [] []).issues ∧
    (analyzeOk "https://shop.example" docC5 200 [] []).score = 1 := by
  decide

/-- Claim C5 (amended): the `flavor` disjunct of the secondary
default-theme condition is dead — the condition is equivalent to
`twentytwenty` present and `flavor` absent — but when that holds
together with the `wp-content` guard, the rule does fire and adds
severity weight 1, so the check is not informational-only. -/
theorem default_theme_condition_equiv (respUrl html : String) :
    ((¬ pyContains (pyLower html) "flavor" ∧
        (pyContains (pyLower html) "twentytwenty" ∨ pyContains (pyLower html) "flavor")) ↔
      (pyContains (pyLower html) "twentytwenty" ∧ ¬ pyContains (pyLower html) "flavor")) ∧
    ("⚠️ Default WordPress theme" ∈ issuesOf respUrl html ↔
      (pyContains (pyLower html) "wp-content" ∧ pyContains (pyLower html) "twentytwenty" ∧
        ¬ pyContains (pyLower html) "flavor")) := by
  constructor
  · tauto
  · rw [defaultTheme_mem_issues]
    tauto

/-- Counterexample for claim C2: on a document whose email matches in
scan order are `a@b.com`, `c@d.cc`, `a@b.com`, the enumeration
`[c@d.cc, a@b.com]` is an admissible `list(set(...))` result, and the
resulting retained order differs from first-unique-match scan order,
so the retained order is not the first unique match in scan order. -/
theorem contacts_order_counterexample :
    IsSetList (emailFindall docC2) ["c@d.cc", "a@b.com"] ∧
    (analyzeOk "https://x.example" docC2 200 ["c@d.cc", "a@b.com"] []).emails ≠
      (dedupFirst (emailFindall docC2)).take 5 := by
  decide

/-- Claim C2 (amended): for every admissible set enumeration of the
email/phone matches, the extracted lists are duplicate-free, contain
only matches of the respective pattern, and are truncated to at most
5 entries; the retained order is the (implementation-defined) set
enumeration order, and extraction is deterministic given that
enumeration. -/
theorem contacts_dedup_capped (respUrl html : String) (status : Nat)
    (eout pout : List String)
    (he : IsSetList (emailFindall html) eout)
    (hp : IsSetList (phoneFindall html) pout) :
    (analyzeOk respUrl html status eout pout).emails.length ≤ 5 ∧
    (analyzeOk respUrl html status eout pout).phones.length ≤ 5 ∧
    (analyzeOk respUrl html status eout pout).emails.Nodup ∧
    (analyzeOk respUrl html status eout pout).phones.Nodup ∧
    (∀ x ∈ (analyzeOk respUrl html status eout pout).emails, x ∈ emailFindall html) ∧
    (∀ x ∈ (analyzeOk respUrl html status eout pout).phones, x ∈ phoneFindall html) ∧
    (analyzeOk respUrl html status eout pout).emails = eout.take 5 ∧
    (analyzeOk respUrl html status eout pout).phones = pout.take 5 :=
  ⟨List.length_take_le _ _, List.length_take_le _ _,
   he.1.sublist (List.take_sublist _ _), hp.1.sublist (List.take_sublist _ _),
   fun x hx => he.2.2 x (List.take_subset _ _ hx),
   fun x hx => hp.2.2 x (List.take_subset _ _ hx), rfl, rfl⟩

/-- Witness for claim C2 (amended): the capped, duplicate-free
extraction at a concrete document and a concrete admissible
enumeration. -/
theorem contacts_dedup_capped_witness :
    (analyzeOk "https://x.example" docC2 200 ["a@b.com", "c@d.cc"] []).emails.length ≤ 5 ∧
    (analyzeOk "https://x.example" docC2 200 ["a@b.com", "c@d.cc"] []).emails.Nodup :=
  ⟨(contacts_dedup_capped "https://x.example" docC2 200 ["a@b.com", "c@d.cc"] []
      (by decide) (by decide)).1,
   (contacts_dedup_capped "https://x.example" docC2 200 ["a@b.com", "c@d.cc"] []
      (by decide) (by decide)).2.2.1⟩
